import Mathlib

/-!
Verification of the `can_form_triangle` function from
`QuadraticEquationLab/QuadraticEquationSolver.Tests/TestTriangleFunction.py`.

The function receives three Python values, checks that each is numeric
(`isinstance(side, (int, float))` — which accepts `bool`, a subclass of
`int`), checks that each is strictly positive, and then returns the
three-conjunct triangle-inequality test
`(a + b > c) and (a + c > b) and (b + c > a)`.

Python values are embedded as an inductive type; Python floats are
modelled as exact rationals (the spec leaves floating-point boundary
rounding unspecified, and no claim depends on rounding).  The function's
outcome — a boolean return, a `TypeError`, or a `ValueError` — is
embedded as the result type `TriResult`.
-/

/-- A Python runtime value, covering the shapes the tests exercise:
integers, floats, booleans, strings, `None`, lists and dicts. -/
inductive PyVal where
  | int : Int → PyVal
  | float : ℚ → PyVal
  | bool : Bool → PyVal
  | str : String → PyVal
  | none : PyVal
  | list : List PyVal → PyVal
  | dict : PyVal

/-- `isinstance(side, (int, float))`.  In Python, `bool` is a subclass of
`int`, so booleans pass this test. -/
def PyVal.isNumeric : PyVal → Bool
  | .int _ => true
  | .float _ => true
  | .bool _ => true
  | _ => false

/-- The numeric value of a Python numeric: `True` compares as `1` and
`False` as `0`.  Non-numeric values never reach an arithmetic context in
the source (the type check precedes all arithmetic); they are mapped to
`0`, a value the function never observes for them. -/
def PyVal.toRat : PyVal → ℚ
  | .int n => (n : ℚ)
  | .float q => q
  | .bool b => if b then 1 else 0
  | _ => 0

/-- The outcome of a call to `can_form_triangle`: a returned boolean, a
raised `TypeError`, or a raised `ValueError` (each carrying its message). -/
inductive TriResult where
  | ok : Bool → TriResult
  | typeError : String → TriResult
  | valueError : String → TriResult
deriving DecidableEq

/-- Shallow embedding of `can_form_triangle(a, b, c)`:
type validation, then positivity validation, then
`return (a + b > c) and (a + c > b) and (b + c > a)`. -/
def can_form_triangle (a b c : PyVal) : TriResult :=
  if ¬ (a.isNumeric = true ∧ b.isNumeric = true ∧ c.isNumeric = true) then
    .typeError "All sides must be numeric (int or float)"
  else if ¬ (0 < a.toRat ∧ 0 < b.toRat ∧ 0 < c.toRat) then
    .valueError "All sides must be positive numbers"
  else
    .ok (decide (a.toRat + b.toRat > c.toRat ∧
                 a.toRat + c.toRat > b.toRat ∧
                 b.toRat + c.toRat > a.toRat))

/-- `Modelled from the spec:` the optimised max-based formulation named by
the refinement claim — a single inequality `2 * max(a, b, c) < a + b + c`
replacing the three-conjunct test; it is not in the source. -/
def triangle_max_test (a b c : ℚ) : Bool :=
  decide (2 * max a (max b c) < a + b + c)

/-- On numeric, strictly positive inputs the function reaches the
triangle-inequality evaluation and returns its boolean. -/
lemma can_form_triangle_of_valid (a b c : PyVal)
    (ha : a.isNumeric = true) (hb : b.isNumeric = true) (hc : c.isNumeric = true)
    (hpa : 0 < a.toRat) (hpb : 0 < b.toRat) (hpc : 0 < c.toRat) :
    can_form_triangle a b c =
      .ok (decide (a.toRat + b.toRat > c.toRat ∧
                   a.toRat + c.toRat > b.toRat ∧
                   b.toRat + c.toRat > a.toRat)) := by
  unfold can_form_triangle
  rw [if_neg (by tauto), if_neg (by tauto)]

/-- C1: for numeric, strictly positive inputs, `can_form_triangle`
returns `true` iff `a + b > c`, `a + c > b` and `b + c > a` all hold, and
returns `false` otherwise. -/
theorem can_form_triangle_iff_ineqs (a b c : PyVal)
    (ha : a.isNumeric = true) (hb : b.isNumeric = true) (hc : c.isNumeric = true)
    (hpa : 0 < a.toRat) (hpb : 0 < b.toRat) (hpc : 0 < c.toRat) :
    (can_form_triangle a b c = .ok true ↔
      (a.toRat + b.toRat > c.toRat ∧
       a.toRat + c.toRat > b.toRat ∧
       b.toRat + c.toRat > a.toRat)) ∧
    (can_form_triangle a b c = .ok false ↔
      ¬ (a.toRat + b.toRat > c.toRat ∧
         a.toRat + c.toRat > b.toRat ∧
         b.toRat + c.toRat > a.toRat)) := by
  rw [can_form_triangle_of_valid a b c ha hb hc hpa hpb hpc]
  constructor
  · simp
  · simp

/-- C1 witness: instantiated at the valid triple (3, 4, 5). -/
theorem can_form_triangle_iff_ineqs_witness :
    can_form_triangle (.int 3) (.int 4) (.int 5) = .ok true ↔
      ((PyVal.int 3).toRat + (PyVal.int 4).toRat > (PyVal.int 5).toRat ∧
       (PyVal.int 3).toRat + (PyVal.int 5).toRat > (PyVal.int 4).toRat ∧
       (PyVal.int 4).toRat + (PyVal.int 5).toRat > (PyVal.int 3).toRat) :=
  (can_form_triangle_iff_ineqs (.int 3) (.int 4) (.int 5)
    (by decide) (by decide) (by decide)
    (by norm_num [PyVal.toRat]) (by norm_num [PyVal.toRat])
    (by norm_num [PyVal.toRat])).1

/-- C2: on all-numeric inputs, any zero-or-negative side raises the
`ValueError` whose message says all sides must be positive, whatever the
other two sides are; and when all three sides are strictly positive no
`ValueError` is raised. -/
theorem can_form_triangle_positivity_gate (a b c : PyVal)
    (ha : a.isNumeric = true) (hb : b.isNumeric = true) (hc : c.isNumeric = true) :
    ((a.toRat ≤ 0 ∨ b.toRat ≤ 0 ∨ c.toRat ≤ 0) →
      can_form_triangle a b c = .valueError "All sides must be positive numbers") ∧
    ((0 < a.toRat ∧ 0 < b.toRat ∧ 0 < c.toRat) →
      ∀ s : String, can_form_triangle a b c ≠ .valueError s) := by
  constructor
  · intro hle
    unfold can_form_triangle
    rw [if_neg (by tauto), if_pos]
    rcases hle with h | h | h
    · exact fun hcontra => absurd hcontra.1 (not_lt.mpr h)
    · exact fun hcontra => absurd hcontra.2.1 (not_lt.mpr h)
    · exact fun hcontra => absurd hcontra.2.2 (not_lt.mpr h)
  · intro hpos s
    rw [can_form_triangle_of_valid a b c ha hb hc hpos.1 hpos.2.1 hpos.2.2]
    exact fun hcontra => TriResult.noConfusion hcontra

/-- C2 witness: instantiated at (0, 2, 3), whose first side is zero. -/
theorem can_form_triangle_positivity_gate_witness :
    can_form_triangle (.int 0) (.int 2) (.int 3) =
      .valueError "All sides must be positive numbers" :=
  (can_form_triangle_positivity_gate (.int 0) (.int 2) (.int 3)
    (by decide) (by decide) (by decide)).1
    (Or.inl (by norm_num [PyVal.toRat]))

/-- C3: if any input is non-numeric, `can_form_triangle` raises the
`TypeError` whose message says inputs must be numeric — even when another
input is invalid in another way; the type check comes first. -/
theorem can_form_triangle_type_gate (a b c : PyVal)
    (h : ¬ (a.isNumeric = true ∧ b.isNumeric = true ∧ c.isNumeric = true)) :
    can_form_triangle a b c = .typeError "All sides must be numeric (int or float)" := by
  unfold can_form_triangle
  rw [if_pos h]

/-- C3 witness: instantiated at ("3", -4, 5), where the second input is
also invalid (negative) yet the `TypeError` is the one raised. -/
theorem can_form_triangle_type_gate_witness :
    can_form_triangle (.str "3") (.int (-4)) (.int 5) =
      .typeError "All sides must be numeric (int or float)" :=
  can_form_triangle_type_gate (.str "3") (.int (-4)) (.int 5) (by decide)

/-- C5: a numeric, strictly positive triple in which one side equals the
sum of the other two (in any of the three positions) is rejected:
`can_form_triangle` returns `false`. -/
theorem can_form_triangle_degenerate (a b c : PyVal)
    (ha : a.isNumeric = true) (hb : b.isNumeric = true) (hc : c.isNumeric = true)
    (hpa : 0 < a.toRat) (hpb : 0 < b.toRat) (hpc : 0 < c.toRat)
    (hdeg : a.toRat + b.toRat = c.toRat ∨
            a.toRat + c.toRat = b.toRat ∨
            b.toRat + c.toRat = a.toRat) :
    can_form_triangle a b c = .ok false := by
  rw [can_form_triangle_of_valid a b c ha hb hc hpa hpb hpc]
  have : ¬ (a.toRat + b.toRat > c.toRat ∧
            a.toRat + c.toRat > b.toRat ∧
            b.toRat + c.toRat > a.toRat) := by
    rcases hdeg with h | h | h
    · exact fun hcontra => absurd hcontra.1 (by rw [h]; exact lt_irrefl _)
    · exact fun hcontra => absurd hcontra.2.1 (by rw [h]; exact lt_irrefl _)
    · exact fun hcontra => absurd hcontra.2.2 (by rw [h]; exact lt_irrefl _)
  simp [this]

/-- C5 witness: instantiated at the degenerate triple (1, 2, 3). -/
theorem can_form_triangle_degenerate_witness :
    can_form_triangle (.int 1) (.int 2) (.int 3) = .ok false :=
  can_form_triangle_degenerate (.int 1) (.int 2) (.int 3)
    (by decide) (by decide) (by decide)
    (by norm_num [PyVal.toRat]) (by norm_num [PyVal.toRat]) (by norm_num [PyVal.toRat])
    (Or.inl (by norm_num [PyVal.toRat]))

/-- C6: every invocation yields exactly one of: a returned boolean, the
`TypeError` with the numeric message, or the `ValueError` with the
positivity message — no other failure mode exists. -/
theorem can_form_triangle_total (a b c : PyVal) :
    (∃ v : Bool, can_form_triangle a b c = .ok v) ∨
    can_form_triangle a b c = .typeError "All sides must be numeric (int or float)" ∨
    can_form_triangle a b c = .valueError "All sides must be positive numbers" := by
  unfold can_form_triangle
  by_cases h1 : ¬ (a.isNumeric = true ∧ b.isNumeric = true ∧ c.isNumeric = true)
  · rw [if_pos h1]; exact Or.inr (Or.inl rfl)
  · rw [if_neg h1]
    by_cases h2 : ¬ (0 < a.toRat ∧ 0 < b.toRat ∧ 0 < c.toRat)
    · rw [if_pos h2]; exact Or.inr (Or.inr rfl)
    · rw [if_neg h2]; exact Or.inl ⟨_, rfl⟩

/-- Swapping the first two arguments never changes the result. -/
lemma can_form_triangle_swap12 (a b c : PyVal) :
    can_form_triangle a b c = can_form_triangle b a c := by
  unfold can_form_triangle
  by_cases h1 : a.isNumeric = true ∧ b.isNumeric = true ∧ c.isNumeric = true
  · have h1' : b.isNumeric = true ∧ a.isNumeric = true ∧ c.isNumeric = true := by tauto
    rw [if_neg (not_not_intro h1), if_neg (not_not_intro h1')]
    by_cases h2 : 0 < a.toRat ∧ 0 < b.toRat ∧ 0 < c.toRat
    · have h2' : 0 < b.toRat ∧ 0 < a.toRat ∧ 0 < c.toRat := by tauto
      rw [if_neg (not_not_intro h2), if_neg (not_not_intro h2')]
      congr 1
      rw [decide_eq_decide]
      constructor <;> rintro ⟨u, v, w⟩ <;> exact ⟨by linarith, by linarith, by linarith⟩
    · have h2' : ¬ (0 < b.toRat ∧ 0 < a.toRat ∧ 0 < c.toRat) := by tauto
      rw [if_pos h2, if_pos h2']
  · have h1' : ¬ (b.isNumeric = true ∧ a.isNumeric = true ∧ c.isNumeric = true) := by tauto
    rw [if_pos h1, if_pos h1']

/-- Swapping the last two arguments never changes the result. -/
lemma can_form_triangle_swap23 (a b c : PyVal) :
    can_form_triangle a b c = can_form_triangle a c b := by
  unfold can_form_triangle
  by_cases h1 : a.isNumeric = true ∧ b.isNumeric = true ∧ c.isNumeric = true
  · have h1' : a.isNumeric = true ∧ c.isNumeric = true ∧ b.isNumeric = true := by tauto
    rw [if_neg (not_not_intro h1), if_neg (not_not_intro h1')]
    by_cases h2 : 0 < a.toRat ∧ 0 < b.toRat ∧ 0 < c.toRat
    · have h2' : 0 < a.toRat ∧ 0 < c.toRat ∧ 0 < b.toRat := by tauto
      rw [if_neg (not_not_intro h2), if_neg (not_not_intro h2')]
      congr 1
      rw [decide_eq_decide]
      constructor <;> rintro ⟨u, v, w⟩ <;> exact ⟨by linarith, by linarith, by linarith⟩
    · have h2' : ¬ (0 < a.toRat ∧ 0 < c.toRat ∧ 0 < b.toRat) := by tauto
      rw [if_pos h2, if_pos h2']
  · have h1' : ¬ (a.isNumeric = true ∧ c.isNumeric = true ∧ b.isNumeric = true) := by tauto
    rw [if_pos h1, if_pos h1']

/-- C4: `can_form_triangle` is symmetric — all six argument orders give
the same result (same boolean, or the same raised error), so the outcome
depends only on the multiset of the three inputs. -/
theorem can_form_triangle_symmetric (a b c : PyVal) :
    can_form_triangle a b c = can_form_triangle a c b ∧
    can_form_triangle a b c = can_form_triangle b a c ∧
    can_form_triangle a b c = can_form_triangle b c a ∧
    can_form_triangle a b c = can_form_triangle c a b ∧
    can_form_triangle a b c = can_form_triangle c b a := by
  refine ⟨can_form_triangle_swap23 a b c, can_form_triangle_swap12 a b c, ?_, ?_, ?_⟩
  · rw [can_form_triangle_swap12 a b c, can_form_triangle_swap23 b a c]
  · rw [can_form_triangle_swap23 a b c, can_form_triangle_swap12 a c b]
  · rw [can_form_triangle_swap12 a b c, can_form_triangle_swap23 b a c,
        can_form_triangle_swap12 b c a]

/-- C7: the spec's concrete scenarios. (3,4,5) and (5,5,5) are valid;
(1,2,5) and the degenerate (1,2,3) are not; (-1,2,3) and (0,2,3) raise
the `ValueError`; ("3",4,5) raises the `TypeError`; (1,2,2.5) is valid
and (1,2,3.1) is not. -/
theorem can_form_triangle_scenarios :
    can_form_triangle (.int 3) (.int 4) (.int 5) = .ok true ∧
    can_form_triangle (.int 5) (.int 5) (.int 5) = .ok true ∧
    can_form_triangle (.int 1) (.int 2) (.int 5) = .ok false ∧
    can_form_triangle (.int 1) (.int 2) (.int 3) = .ok false ∧
    can_form_triangle (.int (-1)) (.int 2) (.int 3) =
      .valueError "All sides must be positive numbers" ∧
    can_form_triangle (.int 0) (.int 2) (.int 3) =
      .valueError "All sides must be positive numbers" ∧
    can_form_triangle (.str "3") (.int 4) (.int 5) =
      .typeError "All sides must be numeric (int or float)" ∧
    can_form_triangle (.int 1) (.int 2) (.float (5/2)) = .ok true ∧
    can_form_triangle (.int 1) (.int 2) (.float (31/10)) = .ok false := by
  refine ⟨?_, ?_, ?_, ?_, ?_, ?_, ?_, ?_, ?_⟩ <;>
    norm_num [can_form_triangle, PyVal.toRat, PyVal.isNumeric]

/-- C8: `can_form_triangle` is deterministic and referentially
transparent — two invocations on identical inputs produce identical
outcomes (same boolean, or same raised error). -/
theorem can_form_triangle_deterministic (a b c a' b' c' : PyVal)
    (ha : a = a') (hb : b = b') (hc : c = c') :
    can_form_triangle a b c = can_form_triangle a' b' c' := by
  rw [ha, hb, hc]

/-- C8 witness: instantiated at two identical calls on (3, 4, 5). -/
theorem can_form_triangle_deterministic_witness :
    can_form_triangle (.int 3) (.int 4) (.int 5) =
      can_form_triangle (.int 3) (.int 4) (.int 5) :=
  can_form_triangle_deterministic (.int 3) (.int 4) (.int 5)
    (.int 3) (.int 4) (.int 5) rfl rfl rfl

/-- C9: Python booleans pass `isinstance(side, (int, float))` because
`bool` subclasses `int`: (True, True, True) returns `true` (True counts
as 1) and (False, 2, 3) raises the `ValueError` (False counts as 0) —
neither raises the `TypeError`. -/
theorem can_form_triangle_bool_inputs :
    can_form_triangle (.bool true) (.bool true) (.bool true) = .ok true ∧
    can_form_triangle (.bool false) (.int 2) (.int 3) =
      .valueError "All sides must be positive numbers" := by
  constructor <;> norm_num [can_form_triangle, PyVal.toRat, PyVal.isNumeric]

/-- C10: on strictly positive numeric inputs the three-conjunct test the
code computes coincides with the spec-modelled optimised formulation
`2 * max(a, b, c) < a + b + c`. -/
theorem can_form_triangle_max_refinement (a b c : ℚ)
    (hpa : 0 < a) (hpb : 0 < b) (hpc : 0 < c) :
    can_form_triangle (.float a) (.float b) (.float c) =
      .ok (triangle_max_test a b c) := by
  rw [can_form_triangle_of_valid (.float a) (.float b) (.float c)
        rfl rfl rfl hpa hpb hpc]
  unfold triangle_max_test
  congr 1
  rw [decide_eq_decide]
  show (a + b > c ∧ a + c > b ∧ b + c > a) ↔ 2 * max a (max b c) < a + b + c
  constructor
  · rintro ⟨h1, h2, h3⟩
    rcases le_total b c with hbc | hbc
    · rcases le_total a c with hac | hac
      · rw [max_eq_right hbc, max_eq_right hac]; linarith
      · rw [max_eq_right hbc, max_eq_left hac]; linarith
    · rcases le_total a b with hab | hab
      · rw [max_eq_left hbc, max_eq_right hab]; linarith
      · rw [max_eq_left hbc, max_eq_left hab]; linarith
  · intro h
    have h1 : 2 * a ≤ 2 * max a (max b c) := by
      have := le_max_left a (max b c); linarith
    have h2 : 2 * b ≤ 2 * max a (max b c) := by
      have := le_trans (le_max_left b c) (le_max_right a (max b c)); linarith
    have h3 : 2 * c ≤ 2 * max a (max b c) := by
      have := le_trans (le_max_right b c) (le_max_right a (max b c)); linarith
    exact ⟨by linarith, by linarith, by linarith⟩

/-- C10 witness: instantiated at (3, 4, 5). -/
theorem can_form_triangle_max_refinement_witness :
    can_form_triangle (.float 3) (.float 4) (.float 5) =
      .ok (triangle_max_test 3 4 5) :=
  can_form_triangle_max_refinement 3 4 5
    (by norm_num) (by norm_num) (by norm_num)
